import Mathlib

/-!
Shallow embedding of the translation-and-synthesis core of the
Gen-AI-Analytics-Backend repository (`query_processor.py`).

Strings are modelled as `List Char`.  Python's `re.search` over the six
dispatch patterns is embedded by a small backtracking matcher that is
faithful to Python's semantics for the regex constructs those patterns
actually use: literal text, non-capturing alternation of literals,
a greedy optional literal, capturing alternation, and capturing
one-or-more repetitions of a single character class (`(.+)`, `(.+?)`,
`(\d+)`, `(\w+)`), with leftmost-match priority and greedy/lazy
backtracking order.

Randomness (`random.randint`, `random.choice`) is modelled by threading
an explicit entropy stream `Rng`; `randint lo hi` draws one value and
returns `lo + draw % (hi + 1 - lo)`, matching Python's *inclusive*
`randint` range.  Python exceptions (`KeyError` on a missing schema
table, `AttributeError` on `.group` of a failed match) are modelled by
`Option`.
-/

set_option maxRecDepth 10000

/-- Convert a Lean string literal to the `List Char` representation used
throughout this development. -/
def str (s : String) : List Char := s.toList

/-- Single-quote character (codepoint 39), used when building the SQL
fragments that contain quoted literals. -/
def quoteCh : Char := Char.ofNat 39

/-- Wrap a fragment in single quotes, as the Python f-strings do. -/
def q1 (s : List Char) : List Char := quoteCh :: (s ++ [quoteCh])

/-- Lower-casing of text, modelling Python's `str.lower` on the ASCII
inputs this program deals with. -/
def lowerL (s : List Char) : List Char := s.map Char.toLower

/-- Boolean test that `p` is a prefix of `s`. -/
def isPrefB : List Char → List Char → Bool
  | [], _ => true
  | _ :: _, [] => false
  | a :: as, b :: bs => a == b && isPrefB as bs

/-- Boolean substring containment, modelling Python's `in` on strings. -/
def subStr (needle : List Char) : List Char → Bool
  | [] => needle.isEmpty
  | c :: t => isPrefB needle (c :: t) || subStr needle t

/-- Boolean suffix test, modelling Python's `str.endswith`. -/
def endsW (suffix2 : List Char) (s : List Char) : Bool :=
  isPrefB suffix2.reverse s.reverse

/-- Strip every trailing `s`, modelling Python's `rstrip('s')`. -/
def rstripS (s : List Char) : List Char :=
  (s.reverse.dropWhile (fun c => c == Char.ofNat 115)).reverse

/-- Numeric value of a digit string, modelling Python's `int(...)`. -/
def digitsVal (s : List Char) : Nat :=
  s.foldl (fun a c => a * 10 + (c.toNat - 48)) 0

/-- Map over an `Option`, written out so that proofs can unfold it. -/
def mapO {α β : Type} (f : α → β) : Option α → Option β
  | none => none
  | some a => some (f a)

/-- Left-biased choice on `Option`. -/
def orElseO {α : Type} : Option α → Option α → Option α
  | some a, _ => some a
  | none, b => b

/-- First non-`none` result of `f` over a list, in list order.  This is
the backbone of backtracking: candidates are tried in preference order
and the first that lets the rest of the pattern succeed wins. -/
def firstSome {α β : Type} (f : α → Option β) : List α → Option β
  | [] => none
  | a :: as =>
    match f a with
    | some b => some b
    | none => firstSome f as

/-- Regex atoms used by the program's patterns.  `grpCls cls lz` is a
capturing one-or-more repetition of the character class `cls`, lazy when
`lz` is `true` (Python `(.+?)`) and greedy otherwise (`(.+)`, `(\d+)`,
`(\w+)`). -/
inductive RE where
  | lit : List Char → RE
  | alts : List (List Char) → RE
  | opt : List Char → RE
  | grpAlts : List (List Char) → RE
  | grpCls : (Char → Bool) → Bool → RE

/-- Class of Python's `.` (any character except newline). -/
def dotCls (c : Char) : Bool := !(c == Char.ofNat 10)

/-- Class of Python's `\d`. -/
def digitCls (c : Char) : Bool := c.isDigit

/-- Class of Python's `\w` (ASCII reading: alphanumeric or underscore). -/
def wordCls (c : Char) : Bool := c.isAlphanum || c == Char.ofNat 95

/-- Fuel-indexed matcher: try to match the pattern list at the start of
`s`, returning the captured groups of the first success in backtracking
order (the remainder of `s` after the match is ignored, as `re.search`
does).  The fuel is only a structural-recursion device; it is always
called with the pattern length. -/
def matchN : Nat → List RE → List Char → Option (List (List Char))
  | _, [], _ => some []
  | 0, _ :: _, _ => none
  | Nat.succ n, RE.lit l :: ps, s =>
    if isPrefB l s then matchN n ps (s.drop l.length) else none
  | Nat.succ n, RE.alts ls :: ps, s =>
    firstSome (fun l => if isPrefB l s then matchN n ps (s.drop l.length) else none) ls
  | Nat.succ n, RE.opt l :: ps, s =>
    orElseO (if isPrefB l s then matchN n ps (s.drop l.length) else none)
      (matchN n ps s)
  | Nat.succ n, RE.grpAlts ls :: ps, s =>
    firstSome
      (fun l => if isPrefB l s then mapO (fun gs => l :: gs) (matchN n ps (s.drop l.length)) else none)
      ls
  | Nat.succ n, RE.grpCls cls lz :: ps, s =>
    firstSome
      (fun k => mapO (fun gs => s.take k :: gs) (matchN n ps (s.drop k)))
      (if lz then List.range' 1 (s.takeWhile cls).length
       else (List.range' 1 (s.takeWhile cls).length).reverse)

/-- Match a pattern at the start of `s`. -/
def matchRE (ps : List RE) (s : List Char) : Option (List (List Char)) :=
  matchN ps.length ps s

/-- Leftmost search, modelling `re.search`: try each start position from
the left and return the groups of the first position that matches. -/
def searchN : List RE → List Char → Option (List (List Char))
  | ps, [] => matchRE ps []
  | ps, c :: t => orElseO (matchRE ps (c :: t)) (searchN ps t)

/-- Search wrapper with the argument order used below. -/
def searchRE (ps : List RE) (s : List Char) : Option (List (List Char)) :=
  searchN ps s

/-- Pattern `show me (?:the )?(top|bottom) (\d+) (.+?) by (.+)`. -/
def pat_ranking : List RE :=
  [RE.lit (str "show me "), RE.opt (str "the "),
   RE.grpAlts [str "top", str "bottom"], RE.lit (str " "),
   RE.grpCls digitCls false, RE.lit (str " "),
   RE.grpCls dotCls true, RE.lit (str " by "), RE.grpCls dotCls false]

/-- Pattern `what (?:were|was) (?:the )?(.+) (?:last|this|past) (.+)`. -/
def pat_temporal : List RE :=
  [RE.lit (str "what "), RE.alts [str "were", str "was"], RE.lit (str " "),
   RE.opt (str "the "), RE.grpCls dotCls false, RE.lit (str " "),
   RE.alts [str "last", str "this", str "past"], RE.lit (str " "),
   RE.grpCls dotCls false]

/-- Pattern `list (.+) with (.+) (?:below|under|above|over|equals to?) (.+)`.
The alternative `equals to?` is expanded into its two literal forms in
Python's preference order (greedy optional `o` first). -/
def pat_filter : List RE :=
  [RE.lit (str "list "), RE.grpCls dotCls false, RE.lit (str " with "),
   RE.grpCls dotCls false, RE.lit (str " "),
   RE.alts [str "below", str "under", str "above", str "over",
            str "equals to", str "equals t"],
   RE.lit (str " "), RE.grpCls dotCls false]

/-- Pattern `how many (.+) (?:were|was) there (?:last|this|past) (.+)`. -/
def pat_count : List RE :=
  [RE.lit (str "how many "), RE.grpCls dotCls false, RE.lit (str " "),
   RE.alts [str "were", str "was"], RE.lit (str " there "),
   RE.alts [str "last", str "this", str "past"], RE.lit (str " "),
   RE.grpCls dotCls false]

/-- Pattern `compare (.+) and (.+) by (.+)`. -/
def pat_comparison : List RE :=
  [RE.lit (str "compare "), RE.grpCls dotCls false, RE.lit (str " and "),
   RE.grpCls dotCls false, RE.lit (str " by "), RE.grpCls dotCls false]

/-- Pattern `what is the average (.+) for (.+)`. -/
def pat_aggregation : List RE :=
  [RE.lit (str "what is the average "), RE.grpCls dotCls false,
   RE.lit (str " for "), RE.grpCls dotCls false]

/-- The six dispatch patterns in the fixed priority order of
`QueryProcessor.__init__`. -/
def patterns : List (List RE) :=
  [pat_ranking, pat_temporal, pat_filter, pat_count, pat_comparison, pat_aggregation]

/-- Entropy source for the program's use of Python's `random` module:
an infinite stream of raw naturals and a position.  Every call to
`randint` or `choice` consumes one raw draw. -/
structure Rng where
  seq : Nat → Nat
  pos : Nat

/-- Advance the entropy stream by one draw. -/
def adv (r : Rng) : Rng := { r with pos := r.pos + 1 }

/-- Take one raw draw. -/
def draw (r : Rng) : Nat × Rng := (r.seq r.pos, adv r)

/-- Model of Python's `random.randint(lo, hi)`: a value in the
inclusive range `[lo, hi]`.  Because `hi + 1 - lo` values are possible,
every residue of the raw draw modulo `hi + 1 - lo` is realised. -/
def randint (lo hi : Nat) (r : Rng) : Nat × Rng :=
  let p := draw r
  (lo + p.1 % (hi + 1 - lo), p.2)

/-- Model of Python's `random.choice` on a list of strings: a uniformly
indexed element. -/
def choiceL (l : List (List Char)) (r : Rng) : List Char × Rng :=
  let p := draw r
  (l.getD (p.1 % l.length) [], p.2)

/-- Values stored in mock records: Python ints and strings. -/
inductive Val where
  | int : Nat → Val
  | str : List Char → Val
  deriving DecidableEq

/-- A mock record: ordered column/value pairs (a Python dict keeps
insertion order, so a record is faithfully an ordered association
list). -/
abbrev Row : Type := List (List Char × Val)

/-- Table schemas of `QueryProcessor.schemas`, in dict insertion
order. -/
def schemas : List (List Char × List (List Char)) :=
  [(str "customers",
    [str "id", str "name", str "email", str "revenue", str "region", str "join_date"]),
   (str "products",
    [str "id", str "name", str "category", str "price", str "inventory", str "supplier"]),
   (str "sales",
    [str "id", str "product_id", str "customer_id", str "amount", str "date", str "region"]),
   (str "employees",
    [str "id", str "name", str "department", str "salary", str "hire_date"])]

/-- Association-list lookup; `none` models Python's `KeyError` site. -/
def lookupL {α : Type} (k : List Char) : List (List Char × α) → Option α
  | [] => none
  | (k2, v) :: t => if k == k2 then some v else lookupL k t

/-- Two-digit zero-padded decimal rendering, modelling the `:02d`
format used by the `date` generator (its arguments are at most 28). -/
def pad2 (n : Nat) : List Char := [Char.ofNat (48 + n / 10), Char.ofNat (48 + n % 10)]

/-- Generator for the `name` column. -/
def gen_name (r : Rng) : Val × Rng :=
  let p := choiceL [str "John", str "Jane", str "Bob", str "Alice", str "Charlie", str "Eve"] r
  (Val.str p.1, p.2)

/-- Generator for the `email` column. -/
def gen_email (r : Rng) : Val × Rng :=
  let p := choiceL [str "john", str "jane", str "bob"] r
  (Val.str (p.1 ++ str "@example.com"), p.2)

/-- Generator for the `revenue` column. -/
def gen_revenue (r : Rng) : Val × Rng :=
  let p := randint 1000 100000 r
  (Val.int p.1, p.2)

/-- Generator for the `region` column. -/
def gen_region (r : Rng) : Val × Rng :=
  let p := choiceL [str "North", str "South", str "East", str "West"] r
  (Val.str p.1, p.2)

/-- Generator for the `date` column: `f"2023-{randint(1,12):02d}-{randint(1,28):02d}"`. -/
def gen_date (r : Rng) : Val × Rng :=
  let pm := randint 1 12 r
  let pd := randint 1 28 pm.2
  (Val.str (str "2023-" ++ pad2 pm.1 ++ str "-" ++ pad2 pd.1), pd.2)

/-- Generator for the `price` column. -/
def gen_price (r : Rng) : Val × Rng :=
  let p := randint 10 1000 r
  (Val.int p.1, p.2)

/-- Generator for the `inventory` column. -/
def gen_inventory (r : Rng) : Val × Rng :=
  let p := randint 0 500 r
  (Val.int p.1, p.2)

/-- Generator for the `amount` column: `randint(1, 100) * 10`. -/
def gen_amount (r : Rng) : Val × Rng :=
  let p := randint 1 100 r
  (Val.int (p.1 * 10), p.2)

/-- Generator for the `salary` column. -/
def gen_salary (r : Rng) : Val × Rng :=
  let p := randint 30000 120000 r
  (Val.int p.1, p.2)

/-- Generator for the `category` column. -/
def gen_category (r : Rng) : Val × Rng :=
  let p := choiceL [str "Electronics", str "Clothing", str "Food", str "Furniture"] r
  (Val.str p.1, p.2)

/-- The `data_generators` registry, in dict insertion order. -/
def data_generators : List (List Char × (Rng → Val × Rng)) :=
  [(str "name", gen_name), (str "email", gen_email), (str "revenue", gen_revenue),
   (str "region", gen_region), (str "date", gen_date), (str "price", gen_price),
   (str "inventory", gen_inventory), (str "amount", gen_amount),
   (str "salary", gen_salary), (str "category", gen_category)]

/-- Embedding of `_map_entity_to_table`: lower-case, strip a trailing
plural `s`, then an ordered substring guard chain with default
`customers`. -/
def map_entity_to_table (entity : List Char) : List Char :=
  let e := rstripS (lowerL entity)
  if subStr (str "customer") e then str "customers"
  else if subStr (str "product") e then str "products"
  else if subStr (str "sale") e then str "sales"
  else if subStr (str "employee") e then str "employees"
  else str "customers"

/-- Embedding of `_map_attribute`: ordered substring guard chain with
wildcard default. -/
def map_attribute (attr0 : List Char) : List Char :=
  let a := lowerL attr0
  if subStr (str "reven") a then str "revenue"
  else if subStr (str "price") a then str "price"
  else if subStr (str "invent") a then str "inventory"
  else if subStr (str "amount") a || subStr (str "sale") a then str "amount"
  else if subStr (str "salar") a then str "salary"
  else str "*"

/-- Build one of the relative-date SQL conditions of `_map_timeframe`. -/
def dateCond (op : List Char) (delta : List Char) : List Char :=
  str "date " ++ op ++ str " date(" ++ q1 (str "now") ++ str ", " ++ q1 delta ++ str ")"

/-- Embedding of `_map_timeframe`. -/
def map_timeframe (timeframe : List Char) : List Char :=
  let tf := lowerL timeframe
  if subStr (str "day") tf then dateCond (str "=") (str "-1 day")
  else if subStr (str "week") tf then dateCond (str ">=") (str "-7 day")
  else if subStr (str "month") tf then dateCond (str ">=") (str "-1 month")
  else if subStr (str "quarter") tf then dateCond (str ">=") (str "-3 month")
  else if subStr (str "year") tf then dateCond (str ">=") (str "-1 year")
  else str "1=1"

/-- Embedding of `_map_comparison`. -/
def map_comparison (comparison : List Char) : List Char :=
  let c := lowerL comparison
  if subStr (str "below") c || subStr (str "under") c then str "<"
  else if subStr (str "above") c || subStr (str "over") c then str ">"
  else if subStr (str "equal") c then str "="
  else str "="

/-- Embedding of `_parse_value`: first maximal digit run, else `"0"`. -/
def parse_value : List Char → List Char
  | [] => str "0"
  | c :: t => if c.isDigit then c :: t.takeWhile Char.isDigit else parse_value t

/-- Embedding of `_translate_ranking_query`.  Captured groups arrive in
order: direction, limit, entity, metric. -/
def tr_ranking (gs : List (List Char)) : List Char :=
  let direction := gs.getD 0 []
  let limit := gs.getD 1 []
  let entity := gs.getD 2 []
  let metric := gs.getD 3 []
  let ord := if direction == str "top" then str "DESC" else str "ASC"
  let table := map_entity_to_table entity
  let m := map_attribute metric
  str "SELECT * FROM " ++ table ++ str " ORDER BY " ++ m ++ str " " ++ ord ++
    str " LIMIT " ++ limit

/-- Modelled from the spec: `_map_metric_to_table` is called by
`_translate_temporal_query` but is defined nowhere in the repository.
Spec section 4.3 says the temporal translator derives the table from
the metric, so this applies the EntityMapper guard chain of spec
section 4.2 to the metric fragment. -/
def map_metric_to_table (metric : List Char) : List Char :=
  map_entity_to_table metric

/-- Embedding of `_translate_temporal_query`.  Groups: metric,
timeframe. -/
def tr_temporal (gs : List (List Char)) : List Char :=
  let metric := gs.getD 0 []
  let timeframe := gs.getD 1 []
  let time_condition := map_timeframe timeframe
  let table := map_metric_to_table metric
  let m := map_attribute metric
  if m == str "*" then
    str "SELECT SUM(amount) FROM " ++ table ++ str " WHERE " ++ time_condition
  else
    str "SELECT " ++ m ++ str " FROM " ++ table ++ str " WHERE " ++ time_condition

/-- Embedding of `_translate_filter_query`.  Groups: entity, attribute,
comparison phrase.  Note that group 3 is only the text after the
comparison keyword: the keyword itself sits in a non-capturing group of
the pattern. -/
def tr_filter (gs : List (List Char)) : List Char :=
  let entity := gs.getD 0 []
  let attr0 := gs.getD 1 []
  let comparison := gs.getD 2 []
  let table := map_entity_to_table entity
  let a := map_attribute attr0
  let operator := map_comparison comparison
  str "SELECT * FROM " ++ table ++ str " WHERE " ++ a ++ str " " ++ operator ++
    str " " ++ parse_value comparison

/-- Modelled from the spec: `_translate_count_query` is named in the
pattern table but is defined nowhere in the repository.  Spec section
4.3 says the count translator is structurally identical to the temporal
one but wraps a count-aggregate. -/
def tr_count (gs : List (List Char)) : List Char :=
  let table := map_metric_to_table (gs.getD 0 [])
  let time_condition := map_timeframe (gs.getD 1 [])
  str "SELECT COUNT(*) FROM " ++ table ++ str " WHERE " ++ time_condition

/-- Modelled from the spec: `_translate_comparison_query` is named in
the pattern table but is defined nowhere in the repository.  Spec
section 4.3 says it resolves the two entities and the metric
independently into a two-sided structured query. -/
def tr_comparison (gs : List (List Char)) : List Char :=
  let t1 := map_entity_to_table (gs.getD 0 [])
  let t2 := map_entity_to_table (gs.getD 1 [])
  let m := map_attribute (gs.getD 2 [])
  str "SELECT " ++ m ++ str " FROM " ++ t1 ++ str ", " ++ t2

/-- Modelled from the spec: `_translate_aggregation_query` is named in
the pattern table but is defined nowhere in the repository.  Spec
section 4.3 says it emits an average-aggregate over the mapped column
of the mapped grouping entity. -/
def tr_aggregation (gs : List (List Char)) : List Char :=
  str "SELECT AVG(" ++ map_attribute (gs.getD 0 []) ++ str ") FROM " ++
    map_entity_to_table (gs.getD 1 [])

/-- The ordered (pattern, translator) table of `QueryProcessor.__init__`. -/
def dispatchList : List (List RE × (List (List Char) → List Char)) :=
  [(pat_ranking, tr_ranking), (pat_temporal, tr_temporal), (pat_filter, tr_filter),
   (pat_count, tr_count), (pat_comparison, tr_comparison),
   (pat_aggregation, tr_aggregation)]

/-- First-match-wins walk over the dispatch table. -/
def dispatchGo : List (List RE × (List (List Char) → List Char)) → List Char →
    Option (List Char)
  | [], _ => none
  | (p, tr) :: rest, lq =>
    match searchRE p lq with
    | some gs => some (tr gs)
    | none => dispatchGo rest lq

/-- The default fallback pseudo-SQL of `_translate_query`. -/
def fallback_query (lq : List Char) : List Char :=
  str "SELECT * FROM data WHERE query=" ++ q1 lq ++ str " LIMIT 10"

/-- Embedding of `_translate_query`: lower-case the input, try the six
patterns in order, fall back to the default pseudo-SQL. -/
def translate_query (q : List Char) : List Char :=
  let lq := lowerL q
  match dispatchGo dispatchList lq with
  | some t => t
  | none => fallback_query lq

/-- Index of the first pattern matching the (lower-cased) input; this
names which translator `_translate_query` dispatches to. -/
def dispatchIndexGo : List (List RE) → List Char → Option Nat
  | [], _ => none
  | p :: rest, lq =>
    if (searchRE p lq).isSome then some 0
    else mapO (fun n => n + 1) (dispatchIndexGo rest lq)

/-- Dispatch index of an input under the fixed priority order
(0 = ranking, 1 = temporal, 2 = filter, 3 = count, 4 = comparison,
5 = aggregation). -/
def dispatchIndex (q : List Char) : Option Nat :=
  dispatchIndexGo patterns (lowerL q)

/-- The known entities checked by `validate_query` (the schema keys, in
dict order). -/
def entityKeys : List (List Char) := schemas.map Prod.fst

/-- The measurable attributes checked by `validate_query`. -/
def measurableAttrs : List (List Char) :=
  [str "revenue", str "price", str "inventory", str "amount", str "salary"]

/-- Check (a) of `validate_query`: some dispatch pattern matches the
query (`re.search` with `IGNORECASE`, embedded as search over the
lower-cased text, since every pattern literal is lower-case ASCII). -/
def pattern_matched (q : List Char) : Bool :=
  patterns.any (fun p => (searchRE p (lowerL q)).isSome)

/-- Check (b) of `validate_query`: some schema key occurs in the
lower-cased query. -/
def entity_found (q : List Char) : Bool :=
  entityKeys.any (fun e => subStr e (lowerL q))

/-- Check (c) of `validate_query`: some measurable attribute occurs in
the lower-cased query. -/
def attr_found (q : List Char) : Bool :=
  measurableAttrs.any (fun a => subStr a (lowerL q))

/-- Result shape of `validate_query` (`suggestions` is `None` exactly
when the Python code puts `None` there). -/
structure ValidationResult where
  is_valid : Bool
  reasons : List (List Char)
  suggestions : Option (List (List Char))
  deriving DecidableEq

/-- Reason appended when no pattern matches. -/
def reasonNoPattern : List Char :=
  str "Query doesn" ++ [quoteCh] ++ str "t match any known patterns"

/-- Reason appended when no known entity occurs. -/
def reasonNoEntity : List Char :=
  str "No known data entities (customers, products, sales, etc.) detected in query"

/-- Reason appended when no measurable attribute occurs. -/
def reasonNoAttr : List Char :=
  str "No measurable attributes detected in query"

/-- Suggestion appended when no pattern matches. -/
def suggestionPattern : List Char :=
  str "Try using more structured queries like " ++ q1 (str "Show top X by Y") ++
    str " or " ++ q1 (str "List A with B under C")

/-- Suggestion appended when no known entity occurs. -/
def suggestionEntity : List Char :=
  str "Try mentioning specific data entities like " ++ q1 (str "customers") ++
    str ", " ++ q1 (str "products") ++ str ", or " ++ q1 (str "sales")

/-- Suggestion appended when no measurable attribute occurs. -/
def suggestionAttr : List Char :=
  str "Try including measurable attributes like " ++ q1 (str "revenue") ++
    str ", " ++ q1 (str "price") ++ str ", or " ++ q1 (str "inventory")

/-- Embedding of `validate_query`: three non-short-circuiting checks;
each failure appends one reason and one suggestion; the suggestions
field is `None` when the query is valid. -/
def validate_query (q : List Char) : ValidationResult :=
  let m := pattern_matched q
  let e := entity_found q
  let a := attr_found q
  let valid := m && e && a
  let reasons :=
    (if m then [] else [reasonNoPattern]) ++
    (if e then [] else [reasonNoEntity]) ++
    (if a then [] else [reasonNoAttr])
  let suggs :=
    (if m then [] else [suggestionPattern]) ++
    (if e then [] else [suggestionEntity]) ++
    (if a then [] else [suggestionAttr])
  { is_valid := valid, reasons := reasons,
    suggestions := if valid then none else some suggs }

/-- Per-column value synthesis of `_generate_mock_records`: `_id`
suffix first, then the generator registry, then `id`, then the empty
placeholder. -/
def gen_value (col : List Char) (r : Rng) : Val × Rng :=
  if endsW (str "_id") col then
    let p := randint 1 50 r
    (Val.int p.1, p.2)
  else
    match lookupL col data_generators with
    | some g => g r
    | none =>
      if col == str "id" then
        let p := randint 1 1000 r
        (Val.int p.1, p.2)
      else (Val.str [], r)

/-- One record of `_generate_mock_records`: every schema column in
declared order. -/
def gen_record : List (List Char) → Rng → Row × Rng
  | [], r => ([], r)
  | c :: cs, r =>
    let p := gen_value c r
    let rest := gen_record cs p.2
    ((c, p.1) :: rest.1, rest.2)

/-- The record loop of `_generate_mock_records`. -/
def gen_loop (cols : List (List Char)) : Nat → Rng → List Row × Rng
  | 0, r => ([], r)
  | Nat.succ n, r =>
    let p := gen_record cols r
    let rest := gen_loop cols n p.2
    (p.1 :: rest.1, rest.2)

/-- Embedding of `_generate_mock_records`; `none` models the `KeyError`
raised when the table is absent from `self.schemas`. -/
def gen_records (table : List Char) (count : Nat) (r : Rng) :
    Option (List Row × Rng) :=
  match lookupL table schemas with
  | some cols => some (gen_loop cols count r)
  | none => none

/-- Pattern `(SUM|AVG|COUNT)\((\w+)\)` of `_execute_mock_query`. -/
def pat_agg : List RE :=
  [RE.grpAlts [str "SUM", str "AVG", str "COUNT"], RE.lit (str "("),
   RE.grpCls wordCls false, RE.lit (str ")")]

/-- Pattern `LIMIT (\d+)` of `_execute_mock_query`. -/
def pat_limit : List RE := [RE.lit (str "LIMIT "), RE.grpCls digitCls false]

/-- Pattern `FROM (\w+)` of `_execute_mock_query`. -/
def pat_from : List RE := [RE.lit (str "FROM "), RE.grpCls wordCls false]

/-- Embedding of `_execute_mock_query`.  `none` models the two
exception sites: `.group(1)` on a failed `FROM (\w+)` search
(`AttributeError`) and a table missing from `self.schemas` inside
`_generate_mock_records` (`KeyError`). -/
def execute_mock_query (q : List Char) (r : Rng) : Option (List Row × Rng) :=
  if subStr (str "SELECT") q then
    if subStr (str "SUM") q || subStr (str "AVG") q || subStr (str "COUNT") q then
      match searchRE pat_agg q with
      | some gs =>
        let p := randint 1000 100000 r
        some ([[(lowerL (gs.getD 0 []) ++ str "(" ++ gs.getD 1 [] ++ str ")",
                 Val.int p.1)]], p.2)
      | none =>
        match searchRE pat_from q with
        | some gs => gen_records (gs.getD 0 []) 5 r
        | none => none
    else if subStr (str "ORDER BY") q then
      let limit :=
        match searchRE pat_limit q with
        | some gs => digitsVal (gs.getD 0 [])
        | none => 10
      match searchRE pat_from q with
      | some gs => gen_records (gs.getD 0 []) limit r
      | none => none
    else if subStr (str "WHERE") q then
      match searchRE pat_from q with
      | some gs =>
        let p := randint 1 10 r
        gen_records (gs.getD 0 []) p.1 p.2
      | none => none
    else
      match searchRE pat_from q with
      | some gs => gen_records (gs.getD 0 []) 5 r
      | none => none
  else
    some ([[(str "result", Val.str (str "Mock data for query")),
            (str "query", Val.str q)]], r)

/-- Embedding of `process_query`: translate, then execute; the result
keeps the translated query and the rows (the elapsed wall-clock field
is not modelled). -/
def process_query (q : List Char) (r : Rng) : Option (List Char × List Row) :=
  mapO (fun p => (translate_query q, p.1))
    (execute_mock_query (translate_query q) r)

/-- Row projection of the executor, used where only the synthesized
rows matter. -/
def exec_rows (q : List Char) (r : Rng) : Option (List Row) :=
  mapO Prod.fst (execute_mock_query q r)

/-- Constant entropy stream, used for concrete witnesses. -/
def rngC (k : Nat) : Rng := { seq := fun _ => k, pos := 0 }

/-- Lower bound of `randint`: the drawn value is at least `lo`. -/
theorem randint_ge (lo hi : Nat) (r : Rng) : lo ≤ (randint lo hi r).1 :=
  Nat.le_add_right lo _

/-- Upper bound of `randint`: the drawn value is at most `hi` (the
range is inclusive on both ends, as Python's `randint` is). -/
theorem randint_le (lo hi : Nat) (r : Rng) (h : lo ≤ hi) : (randint lo hi r).1 ≤ hi := by
  have h2 : r.seq r.pos % (hi + 1 - lo) < hi + 1 - lo := Nat.mod_lt _ (by omega)
  simp only [randint, draw]
  omega

/-- Specification of a single synthesized column value, following the
branch order of `_generate_mock_records`: `_id`-suffixed columns get an
integer in `[1, 50]`, registered generators produce their own value,
the `id` column gets an integer in `[1, 1000]`, and everything else is
the empty string. -/
def colSpec (col : List Char) (v : Val) : Prop :=
  if endsW (str "_id") col then ∃ k, v = Val.int k ∧ 1 ≤ k ∧ k ≤ 50
  else
    match lookupL col data_generators with
    | some g => ∃ r : Rng, v = (g r).1
    | none =>
      if col == str "id" then ∃ k, v = Val.int k ∧ 1 ≤ k ∧ k ≤ 1000
      else v = Val.str []

/-- Each synthesized value satisfies its column specification. -/
theorem gen_value_spec (col : List Char) (r : Rng) : colSpec col (gen_value col r).1 := by
  unfold colSpec gen_value
  cases hid : endsW (str "_id") col with
  | true =>
    simp only [hid, if_true]
    exact ⟨(randint 1 50 r).1, rfl, randint_ge 1 50 r, randint_le 1 50 r (by omega)⟩
  | false =>
    simp only [hid, Bool.false_eq_true, if_false]
    cases hg : lookupL col data_generators with
    | some g => exact ⟨r, rfl⟩
    | none =>
      cases hkey : col == str "id" with
      | true =>
        simp only [hkey, if_true]
        exact ⟨(randint 1 1000 r).1, rfl, randint_ge 1 1000 r,
               randint_le 1 1000 r (by omega)⟩
      | false => simp only [hkey, Bool.false_eq_true, if_false]

/-- A synthesized record carries exactly the schema's columns, in the
schema's declared order. -/
theorem gen_record_keys (cols : List (List Char)) (r : Rng) :
    ((gen_record cols r).1).map Prod.fst = cols := by
  induction cols generalizing r with
  | nil => rfl
  | cons c cs ih => simp [gen_record, ih]

/-- Every pair of a synthesized record satisfies `colSpec`. -/
theorem gen_record_vals (cols : List (List Char)) (r : Rng) :
    ∀ p ∈ (gen_record cols r).1, colSpec p.1 p.2 := by
  induction cols generalizing r with
  | nil => intro p hp; cases hp
  | cons c cs ih =>
    intro p hp
    rcases List.mem_cons.mp hp with h | h
    · subst h; exact gen_value_spec c r
    · exact ih _ _ h

/-- The synthesis loop produces exactly the requested number of rows. -/
theorem gen_loop_len (cols : List (List Char)) (n : Nat) (r : Rng) :
    ((gen_loop cols n r).1).length = n := by
  induction n generalizing r with
  | zero => rfl
  | succ n ih => simp [gen_loop, ih]

/-- Every row of the synthesis loop has the schema's columns in order
and values satisfying `colSpec`. -/
theorem gen_loop_rows (cols : List (List Char)) (n : Nat) (r : Rng) :
    ∀ row ∈ (gen_loop cols n r).1,
      row.map Prod.fst = cols ∧ ∀ p ∈ row, colSpec p.1 p.2 := by
  induction n generalizing r with
  | zero => intro row h; cases h
  | succ n ih =>
    intro row h
    rcases List.mem_cons.mp h with h | h
    · subst h; exact ⟨gen_record_keys cols r, gen_record_vals cols r⟩
    · exact ih _ _ h

/-- Unfolding of a successful `gen_records` call. -/
theorem gen_records_rows (t : List Char) (n : Nat) (r : Rng) (rows : List Row) (r2 : Rng)
    (h : gen_records t n r = some (rows, r2)) :
    ∃ cols, lookupL t schemas = some cols ∧ rows.length = n ∧
      ∀ row ∈ rows, row.map Prod.fst = cols ∧ ∀ p ∈ row, colSpec p.1 p.2 := by
  unfold gen_records at h
  cases hl : lookupL t schemas with
  | none => rw [hl] at h; cases h
  | some cols =>
    rw [hl] at h
    have h4 : some (gen_loop cols n r) = some (rows, r2) := h
    have h2 : gen_loop cols n r = (rows, r2) := Option.some.inj h4
    refine ⟨cols, rfl, ?_, ?_⟩
    · have := gen_loop_len cols n r
      rw [h2] at this
      exact this
    · intro row hr
      have := gen_loop_rows cols n r
      rw [h2] at this
      exact this row hr

/-- Columns registered for a table, empty for an unknown table. -/
def schemaKeys (t : List Char) : List (List Char) :=
  (lookupL t schemas).getD []

/-- Keys that record synthesis would use for the table named by the
query's `FROM (\w+)` capture. -/
def fromKeys (q : List Char) : List (List Char) :=
  ((searchRE pat_from q).map (fun gs => schemaKeys (gs.getD 0 []))).getD []

/-- Key shape of every row produced by `_execute_mock_query` for a
given pseudo-SQL text: a function of the query text alone, independent
of the entropy stream. -/
def execKeys (q : List Char) : List (List Char) :=
  if subStr (str "SELECT") q then
    if subStr (str "SUM") q || subStr (str "AVG") q || subStr (str "COUNT") q then
      match searchRE pat_agg q with
      | some gs => [lowerL (gs.getD 0 []) ++ str "(" ++ gs.getD 1 [] ++ str ")"]
      | none => fromKeys q
    else if subStr (str "ORDER BY") q then fromKeys q
    else if subStr (str "WHERE") q then fromKeys q
    else fromKeys q
  else [str "result", str "query"]

/-- Helper: a successful `gen_records` call keyed by a `FROM` capture
yields rows whose key list is `fromKeys q`. -/
theorem gen_records_fromKeys (q : List Char) (gs : List (List Char)) (n : Nat) (r : Rng)
    (rows : List Row) (r2 : Rng)
    (hs : searchRE pat_from q = some gs)
    (h : gen_records (gs.getD 0 []) n r = some (rows, r2)) :
    ∀ row ∈ rows, row.map Prod.fst = fromKeys q := by
  obtain ⟨cols, hl, _, hrows⟩ := gen_records_rows _ _ _ _ _ h
  intro row hr
  have hk : fromKeys q = cols := by
    unfold fromKeys schemaKeys
    rw [hs]
    simp only [Option.map_some', Option.getD_some]
    rw [hl]
    simp only [Option.getD_some]
  rw [hk]
  exact (hrows row hr).1

/-- Every row returned by `_execute_mock_query` has the key shape
`execKeys q`; in particular the key shape does not depend on the
entropy stream. -/
theorem exec_keys (q : List Char) (r : Rng) (rows : List Row) (r2 : Rng)
    (h : execute_mock_query q r = some (rows, r2)) :
    ∀ row ∈ rows, row.map Prod.fst = execKeys q := by
  unfold execute_mock_query at h
  unfold execKeys
  cases hsel : subStr (str "SELECT") q with
  | false =>
    simp only [hsel, Bool.false_eq_true, if_false] at h ⊢
    injection h with h2
    injection h2 with hA hB
    intro row hr
    rw [← hA] at hr
    rcases List.mem_cons.mp hr with h3 | h3
    · subst h3; rfl
    · cases h3
  | true =>
    simp only [hsel, if_true] at h ⊢
    cases hagg : (subStr (str "SUM") q || subStr (str "AVG") q || subStr (str "COUNT") q) with
    | true =>
      simp only [hagg, if_true] at h ⊢
      cases hm : searchRE pat_agg q with
      | some gs =>
        simp only [hm] at h ⊢
        injection h with h2
        injection h2 with hA hB
        intro row hr
        rw [← hA] at hr
        rcases List.mem_cons.mp hr with h3 | h3
        · subst h3; rfl
        · cases h3
      | none =>
        simp only [hm] at h ⊢
        cases hf : searchRE pat_from q with
        | some gs =>
          rw [hf] at h
          exact gen_records_fromKeys q gs 5 r rows r2 hf h
        | none => rw [hf] at h; cases h
    | false =>
      simp only [hagg, Bool.false_eq_true, if_false] at h ⊢
      cases hord : subStr (str "ORDER BY") q with
      | true =>
        simp only [hord, if_true] at h ⊢
        cases hf : searchRE pat_from q with
        | some gs =>
          rw [hf] at h
          exact gen_records_fromKeys q gs _ r rows r2 hf h
        | none => rw [hf] at h; cases h
      | false =>
        simp only [hord, Bool.false_eq_true, if_false] at h ⊢
        cases hwh : subStr (str "WHERE") q with
        | true =>
          simp only [hwh, if_true] at h ⊢
          cases hf : searchRE pat_from q with
          | some gs =>
            rw [hf] at h
            exact gen_records_fromKeys q gs _ _ rows r2 hf h
          | none => rw [hf] at h; cases h
        | false =>
          simp only [hwh, Bool.false_eq_true, if_false] at h ⊢
          cases hf : searchRE pat_from q with
          | some gs =>
            rw [hf] at h
            exact gen_records_fromKeys q gs 5 r rows r2 hf h
          | none => rw [hf] at h; cases h

/-- Canonical ranking phrasing. -/
def q_ranking : List Char := str "show me the top 5 customers by revenue"

/-- Canonical temporal phrasing. -/
def q_temporal : List Char := str "what were the sales last quarter"

/-- Canonical filter phrasing. -/
def q_filter : List Char := str "list products with inventory below 100 units"

/-- Canonical count phrasing. -/
def q_count : List Char := str "how many sales were there last month"

/-- Canonical comparison phrasing. -/
def q_comparison : List Char := str "compare products and sales by revenue"

/-- Canonical aggregation phrasing. -/
def q_aggregation : List Char := str "what is the average price for products"

/-- An input matching both the ranking pattern and (as a substring) the
temporal pattern. -/
def q_overlap : List Char := str "show me the top 3 sales by what was revenue last year"

/-- C1: each of the six canonical phrasings is dispatched to its own
category's pattern under the fixed priority order of the pattern table
(0 = ranking, 1 = temporal, 2 = filter, 3 = count, 4 = comparison,
5 = aggregation), and an input matched by both the ranking and the
temporal pattern resolves to the earlier (ranking) one.  These dispatch
facts depend only on the pattern list, which the source defines in
full; the count, comparison and aggregation handler methods that the
pattern table names are absent from the repository. -/
theorem C1_dispatch_order :
    dispatchIndex q_ranking = some 0 ∧
    dispatchIndex q_temporal = some 1 ∧
    dispatchIndex q_filter = some 2 ∧
    dispatchIndex q_count = some 3 ∧
    dispatchIndex q_comparison = some 4 ∧
    dispatchIndex q_aggregation = some 5 ∧
    dispatchIndex q_overlap = some 0 ∧
    (searchRE pat_temporal (lowerL q_overlap)).isSome = true :=
  ⟨rfl, rfl, rfl, rfl, rfl, rfl, rfl, rfl⟩

/-- C2: when no pattern matches, `_translate_query` does return the
documented fallback pseudo-SQL, but `_execute_mock_query` then takes
the `WHERE` branch, extracts the table name `data`, and the schema
lookup inside `_generate_mock_records` fails (`KeyError` in Python,
`none` here): the fallback never produces rows, for every entropy
stream. -/
theorem C2_fallback_no_rows :
    translate_query (str "hello world") = fallback_query (str "hello world") ∧
    lookupL (str "data") schemas = none ∧
    ∀ r : Rng, execute_mock_query (translate_query (str "hello world")) r = none ∧
      process_query (str "hello world") r = none :=
  ⟨rfl, rfl, fun _ => ⟨rfl, rfl⟩⟩

/-- The sum-aggregate pseudo-SQL the spec claims for the canonical
temporal phrasing. -/
def sql_sum_sales : List Char :=
  str "SELECT SUM(amount) FROM sales WHERE " ++ dateCond (str ">=") (str "-3 month")

/-- The pseudo-SQL the temporal translator actually produces for the
canonical temporal phrasing. -/
def sql_amount_sales : List Char :=
  str "SELECT amount FROM sales WHERE " ++ dateCond (str ">=") (str "-3 month")

/-- Schema columns of the `sales` table. -/
def salesCols : List (List Char) :=
  [str "id", str "product_id", str "customer_id", str "amount", str "date", str "region"]

/-- Unfolding lemma for the ORDER BY branch of `_execute_mock_query`:
once the textual classification and the two searches are fixed, the
executor synthesizes `limit` rows for the resolved table. -/
theorem exec_order_branch (q : List Char) (gsl gsf : List (List Char))
    (cols : List (List Char)) (r : Rng) (n : Nat)
    (h1 : subStr (str "SELECT") q = true)
    (h2 : (subStr (str "SUM") q || subStr (str "AVG") q || subStr (str "COUNT") q) = false)
    (h3 : subStr (str "ORDER BY") q = true)
    (h4 : searchRE pat_limit q = some gsl)
    (h5 : searchRE pat_from q = some gsf)
    (h6 : lookupL (gsf.getD 0 []) schemas = some cols)
    (h7 : digitsVal (gsl.getD 0 []) = n) :
    execute_mock_query q r = some (gen_loop cols n r) := by
  unfold execute_mock_query gen_records
  simp only [h1, h2, h3, h4, h5, h6, h7, Bool.false_eq_true, if_true, if_false]

/-- Unfolding lemma for the WHERE branch of `_execute_mock_query`:
once the textual classification and the `FROM` search are fixed, the
executor draws a row count in `[1, 10]` and synthesizes that many rows
for the resolved table. -/
theorem exec_where_branch (q : List Char) (gsf : List (List Char))
    (cols : List (List Char)) (r : Rng)
    (h1 : subStr (str "SELECT") q = true)
    (h2 : (subStr (str "SUM") q || subStr (str "AVG") q || subStr (str "COUNT") q) = false)
    (h3 : subStr (str "ORDER BY") q = false)
    (h4 : subStr (str "WHERE") q = true)
    (h5 : searchRE pat_from q = some gsf)
    (h6 : lookupL (gsf.getD 0 []) schemas = some cols) :
    execute_mock_query q r =
      some (gen_loop cols (randint 1 10 r).1 (randint 1 10 r).2) := by
  unfold execute_mock_query gen_records
  simp only [h1, h2, h3, h4, h5, h6, Bool.false_eq_true, if_true, if_false]

/-- C3 counterexample: for the canonical temporal phrasing the captured
metric is `sales`, which the attribute chain maps to `amount`, not to
the wildcard, so the translation is not the claimed
`SELECT SUM(amount) FROM sales WHERE date >= date(-3 month)` form. -/
theorem C3_counterexample :
    map_attribute (str "sales") = str "amount" ∧
    (map_attribute (str "sales") == str "*") = false ∧
    dispatchIndex q_temporal = some 1 ∧
    (translate_query q_temporal == sql_sum_sales) = false :=
  ⟨rfl, rfl, rfl, rfl⟩

/-- C3 amended: the canonical temporal phrasing dispatches to the
temporal translator, the metric maps to the `amount` column (not the
wildcard), the translation is `SELECT amount FROM sales WHERE date >=
date(-3 month)`, and executing it takes the `WHERE` branch, returning
between 1 and 10 rows of the `sales` schema. -/
theorem C3_amended :
    dispatchIndex q_temporal = some 1 ∧
    translate_query q_temporal = sql_amount_sales ∧
    ∀ r : Rng, ∃ rows r2,
      execute_mock_query (translate_query q_temporal) r = some (rows, r2) ∧
      1 ≤ rows.length ∧ rows.length ≤ 10 ∧
      ∀ row ∈ rows, row.map Prod.fst = salesCols := by
  have ht : translate_query q_temporal = sql_amount_sales := rfl
  refine ⟨rfl, ht, fun r => ?_⟩
  rw [ht]
  refine ⟨(gen_loop salesCols (randint 1 10 r).1 (randint 1 10 r).2).1,
          (gen_loop salesCols (randint 1 10 r).1 (randint 1 10 r).2).2, ?_, ?_, ?_, ?_⟩
  · exact exec_where_branch sql_amount_sales [str "sales"] salesCols r
      rfl rfl rfl rfl rfl rfl
  · rw [gen_loop_len]; exact randint_ge 1 10 r
  · rw [gen_loop_len]; exact randint_le 1 10 r (by omega)
  · intro row hr; exact (gen_loop_rows _ _ _ row hr).1

/-- C4: the canonical filter phrasing dispatches to the filter
translator, but the pattern's comparison keyword sits in a
non-capturing group, so `_map_comparison` receives only `100 units`
and falls back to `=`: the translation uses the equals operator, not
the claimed less-than. -/
theorem C4_filter_operator :
    dispatchIndex q_filter = some 2 ∧
    map_comparison (str "100 units") = str "=" ∧
    translate_query q_filter = str "SELECT * FROM products WHERE inventory = 100" ∧
    (translate_query q_filter == str "SELECT * FROM products WHERE inventory < 100") = false :=
  ⟨rfl, rfl, rfl, rfl⟩

/-- C10: the input `show me the top 5 clients by revenue` is matched by
the ranking pattern and translated (non-fallback) to a query over the
default `customers` table, yet `validate_query` rejects it because no
exact plural table name occurs in the text: dispatch and validation
disagree at the public interface. -/
theorem C10_dispatch_validate_disagree :
    dispatchIndex (str "show me the top 5 clients by revenue") = some 0 ∧
    translate_query (str "show me the top 5 clients by revenue") =
      str "SELECT * FROM customers ORDER BY revenue DESC LIMIT 5" ∧
    (translate_query (str "show me the top 5 clients by revenue") ==
      fallback_query (lowerL (str "show me the top 5 clients by revenue"))) = false ∧
    map_entity_to_table (str "clients") = str "customers" ∧
    entity_found (str "show me the top 5 clients by revenue") = false ∧
    (validate_query (str "show me the top 5 clients by revenue")).is_valid = false :=
  ⟨rfl, rfl, rfl, rfl, rfl, rfl⟩

/-- C5 counterexample: Python's `randint(1000, 100000)` is inclusive,
so the aggregate value can reach 100000, which the claimed half-open
range `[1000, 100000)` excludes: with an entropy draw of 99000 the
synthesized row is exactly `sum(amount) = 100000`, and
`100000 < 100000` is false. -/
theorem C5_counterexample :
    exec_rows sql_sum_sales (rngC 99000) =
      some [[(str "sum(amount)", Val.int 100000)]] ∧
    decide (100000 < 100000) = false :=
  ⟨rfl, rfl⟩

/-- C5 amended: every aggregate-classified query yields exactly one row
with one field, named by the lower-cased aggregate applied to its
source column, whose value lies in the inclusive range
`[1000, 100000]`. -/
theorem C5_aggregate_row (q : List Char) (r : Rng) (agg col : List Char)
    (h1 : subStr (str "SELECT") q = true)
    (h2 : (subStr (str "SUM") q || subStr (str "AVG") q || subStr (str "COUNT") q) = true)
    (h3 : searchRE pat_agg q = some [agg, col]) :
    ∃ v r2, execute_mock_query q r =
        some ([[(lowerL agg ++ str "(" ++ col ++ str ")", Val.int v)]], r2) ∧
      1000 ≤ v ∧ v ≤ 100000 := by
  refine ⟨(randint 1000 100000 r).1, (randint 1000 100000 r).2, ?_,
          randint_ge 1000 100000 r, randint_le 1000 100000 r (by omega)⟩
  unfold execute_mock_query
  simp only [h1, h2, h3, if_true]
  rfl

/-- C5 witness: the amended aggregate-row theorem instantiated at the
concrete sum query and a concrete entropy stream. -/
theorem C5_aggregate_row_witness :
    ∃ v r2, execute_mock_query sql_sum_sales (rngC 0) =
        some ([[(lowerL (str "SUM") ++ str "(" ++ str "amount" ++ str ")", Val.int v)]], r2) ∧
      1000 ≤ v ∧ v ≤ 100000 :=
  C5_aggregate_row sql_sum_sales (rngC 0) (str "SUM") (str "amount") rfl rfl rfl

/-- C6: `validate_query` is valid exactly when all three checks pass,
each failing check contributes exactly one reason and one suggestion,
the suggestions field is `none` exactly when the query is valid, and
the two concrete examples behave as claimed. -/
theorem C6_validate (q : List Char) :
    (validate_query q).is_valid = (pattern_matched q && entity_found q && attr_found q) ∧
    (validate_query q).reasons.length =
      ((if pattern_matched q then 0 else 1) + (if entity_found q then 0 else 1) +
       (if attr_found q then 0 else 1)) ∧
    ((validate_query q).suggestions = none ↔ (validate_query q).is_valid = true) ∧
    mapO List.length (validate_query q).suggestions =
      (if (validate_query q).is_valid then none else some (validate_query q).reasons.length) ∧
    (validate_query (str "foobar")).is_valid = false ∧
    (validate_query (str "foobar")).reasons.length = 3 ∧
    mapO List.length (validate_query (str "foobar")).suggestions = some 3 ∧
    (validate_query q_ranking).is_valid = true ∧
    (validate_query q_ranking).reasons = [] ∧
    (validate_query q_ranking).suggestions = none := by
  refine ⟨rfl, ?_, ?_, ?_, rfl, rfl, rfl, rfl, rfl, rfl⟩
  · cases hm : pattern_matched q <;> cases he : entity_found q <;>
      cases ha : attr_found q <;>
      simp only [validate_query, hm, he, ha, Bool.false_eq_true, if_true, if_false,
        Bool.and_self, Bool.and_true, Bool.and_false, Bool.true_and, Bool.false_and,
        List.append_nil, List.nil_append, List.length_append, List.length_cons,
        List.length_nil]
  · cases hm : pattern_matched q <;> cases he : entity_found q <;>
      cases ha : attr_found q <;>
      simp only [validate_query, hm, he, ha, Bool.false_eq_true, if_true, if_false,
        Bool.and_self, Bool.and_true, Bool.and_false, Bool.true_and, Bool.false_and] <;>
      simp
  · cases hm : pattern_matched q <;> cases he : entity_found q <;>
      cases ha : attr_found q <;>
      simp only [validate_query, mapO, hm, he, ha, Bool.false_eq_true, if_true, if_false,
        Bool.and_self, Bool.and_true, Bool.and_false, Bool.true_and, Bool.false_and,
        List.append_nil, List.nil_append, List.length_append, List.length_cons,
        List.length_nil]

/-- Schema columns of the `customers` table. -/
def customersCols : List (List Char) :=
  [str "id", str "name", str "email", str "revenue", str "region", str "join_date"]

/-- C7: the canonical ranking phrasing dispatches to the ranking
translator, translates to `SELECT * FROM customers ORDER BY revenue
DESC LIMIT 5`, and executing it synthesizes exactly 5 rows, each
carrying every column of the `customers` schema. -/
theorem C7_ranking_pipeline :
    dispatchIndex q_ranking = some 0 ∧
    translate_query q_ranking = str "SELECT * FROM customers ORDER BY revenue DESC LIMIT 5" ∧
    ∀ r : Rng, ∃ rows r2,
      execute_mock_query (translate_query q_ranking) r = some (rows, r2) ∧
      rows.length = 5 ∧ ∀ row ∈ rows, row.map Prod.fst = customersCols := by
  have ht : translate_query q_ranking =
      str "SELECT * FROM customers ORDER BY revenue DESC LIMIT 5" := rfl
  refine ⟨rfl, ht, fun r => ?_⟩
  rw [ht]
  have hx := exec_order_branch (str "SELECT * FROM customers ORDER BY revenue DESC LIMIT 5")
    [str "5"] [str "customers"] customersCols r 5 rfl rfl rfl rfl rfl rfl rfl
  have hlen := gen_loop_len customersCols 5 r
  have hrows := gen_loop_rows customersCols 5 r
  cases hg : gen_loop customersCols 5 r with
  | mk rows r2 =>
    rw [hg] at hx hlen hrows
    exact ⟨rows, r2, hx, hlen, fun row hr => (hrows row hr).1⟩

/-- C8 counterexample: processing the canonical filter phrasing with
two different entropy streams yields 1 row in one run and 2 rows in the
other, so the row count is not a function of the text alone. -/
theorem C8_counterexample :
    mapO (fun p => p.2.length) (process_query q_filter (rngC 0)) = some 1 ∧
    mapO (fun p => p.2.length) (process_query q_filter (rngC 1)) = some 2 ∧
    decide ((1 : Nat) = 2) = false :=
  ⟨rfl, rfl, rfl⟩

/-- C8 amended: for any input processed twice, the translated query
strings are byte-identical (translation does not consult the entropy
stream) and every row of either run has the same key list; the row
counts, however, may differ (the filter branch draws the count at
random, as the counterexample shows). -/
theorem C8_translation_pure (q : List Char) (r1 r2 : Rng) (t1 t2 : List Char)
    (rows1 rows2 : List Row)
    (h1 : process_query q r1 = some (t1, rows1))
    (h2 : process_query q r2 = some (t2, rows2)) :
    t1 = t2 ∧ ∀ row1 ∈ rows1, ∀ row2 ∈ rows2,
      row1.map Prod.fst = row2.map Prod.fst := by
  unfold process_query at h1 h2
  cases he1 : execute_mock_query (translate_query q) r1 with
  | none =>
    rw [he1] at h1
    exact Option.noConfusion h1
  | some p1 =>
    cases he2 : execute_mock_query (translate_query q) r2 with
    | none =>
      rw [he2] at h2
      exact Option.noConfusion h2
    | some p2 =>
      rw [he1] at h1
      rw [he2] at h2
      simp only [mapO] at h1 h2
      injection h1 with h1
      injection h1 with h1a h1b
      injection h2 with h2
      injection h2 with h2a h2b
      constructor
      · rw [← h1a, ← h2a]
      · intro row1 hr1 row2 hr2
        have k1 := exec_keys (translate_query q) r1 p1.1 p1.2 (by rw [he1]) row1
          (by rw [h1b]; exact hr1)
        have k2 := exec_keys (translate_query q) r2 p2.1 p2.2 (by rw [he2]) row2
          (by rw [h2b]; exact hr2)
        rw [k1, k2]

/-- Translated query of the canonical filter phrasing, for the C8
witness. -/
def tq_filter : List Char := str "SELECT * FROM products WHERE inventory = 100"

/-- Rows produced for the canonical filter phrasing under the constant
entropy stream 0. -/
def rows8a : List Row :=
  [[(str "id", Val.int 1), (str "name", Val.str (str "John")),
    (str "category", Val.str (str "Electronics")), (str "price", Val.int 10),
    (str "inventory", Val.int 0), (str "supplier", Val.str [])]]

/-- Rows produced for the canonical filter phrasing under the constant
entropy stream 1. -/
def rows8b : List Row :=
  [[(str "id", Val.int 2), (str "name", Val.str (str "Jane")),
    (str "category", Val.str (str "Clothing")), (str "price", Val.int 11),
    (str "inventory", Val.int 1), (str "supplier", Val.str [])],
   [(str "id", Val.int 2), (str "name", Val.str (str "Jane")),
    (str "category", Val.str (str "Clothing")), (str "price", Val.int 11),
    (str "inventory", Val.int 1), (str "supplier", Val.str [])]]

/-- C8 witness: the amended purity theorem instantiated at the
canonical filter phrasing and two concrete entropy streams. -/
theorem C8_translation_pure_witness :
    tq_filter = tq_filter ∧ ∀ row1 ∈ rows8a, ∀ row2 ∈ rows8b,
      row1.map Prod.fst = row2.map Prod.fst :=
  C8_translation_pure q_filter (rngC 0) (rngC 1) tq_filter tq_filter rows8a rows8b rfl rfl

/-- C9: for every table of the schema registry and every requested
count, `_generate_mock_records` returns exactly that many records, each
carrying every column of the table's schema in declared order (hence
every non-identifier column, none omitted), with `_id`-suffixed columns
drawing an integer in `[1, 50]`, registered generators producing their
own value, the `id` column drawing an integer in `[1, 1000]`, and all
remaining columns receiving the empty-string placeholder. -/
theorem C9_generate_records (t : List Char) (cols : List (List Char)) (n : Nat) (r : Rng)
    (h : lookupL t schemas = some cols) :
    ∃ rows r2, gen_records t n r = some (rows, r2) ∧ rows.length = n ∧
      ∀ row ∈ rows, row.map Prod.fst = cols ∧ ∀ p ∈ row, colSpec p.1 p.2 := by
  refine ⟨(gen_loop cols n r).1, (gen_loop cols n r).2, ?_,
          gen_loop_len cols n r, gen_loop_rows cols n r⟩
  unfold gen_records
  rw [h]

/-- C9 witness: the record-synthesis theorem instantiated at the
`customers` table, count 2 and a concrete entropy stream. -/
theorem C9_generate_records_witness :
    ∃ rows r2, gen_records (str "customers") 2 (rngC 0) = some (rows, r2) ∧
      rows.length = 2 ∧
      ∀ row ∈ rows, row.map Prod.fst = customersCols ∧ ∀ p ∈ row, colSpec p.1 p.2 :=
  C9_generate_records (str "customers") customersCols 2 (rngC 0) rfl
